import Mathlib

/-!
Verification of the TestTool assertion engine and batch case executor.

The Python sources are shallowly embedded:
* Python runtime values become the inductive `PyVal` (dicts are association
  lists; `bool` is kept as a separate constructor because the executors test
  `response_result.get("success") is False`, an identity test against the
  `False` object; numerically a `bool` behaves as an `int`, mirroring that
  Python's `bool` is a subtype of `int`).
* Python floats are modelled as rationals (`Rat`); the decimal strings the
  engine actually parses are exact rationals, so no rounding is modelled.
* Code that can raise returns `Except String α`, the `String` being
  `str(exception)`; `try/except` becomes a `match` on that value.
* External collaborators (the `jsonpath_ng` resolver, `json.loads`,
  `json.dumps`, `re.search`) are parameters, bundled in `ExtDeps`.
-/

/-- Embedded Python runtime value. -/
inductive PyVal : Type where
  | none : PyVal
  | bool : Bool → PyVal
  | int : Int → PyVal
  | float : Rat → PyVal
  | str : String → PyVal
  | list : List PyVal → PyVal
  | dict : List (String × PyVal) → PyVal
deriving Repr

/-- Python type name, as used in interpreter error messages. -/
def typeName : PyVal → String
  | .none => "NoneType"
  | .bool _ => "bool"
  | .int _ => "int"
  | .float _ => "float"
  | .str _ => "str"
  | .list _ => "list"
  | .dict _ => "dict"

/-- A single-quote character, kept out of string literals. -/
def sqt : String := String.mk [Char.ofNat 39]

/-- Python truthiness (`bool(v)`). -/
def truthy : PyVal → Bool
  | .none => false
  | .bool b => b
  | .int n => n != 0
  | .float q => q != 0
  | .str s => s != ""
  | .list xs => !xs.isEmpty
  | .dict xs => !xs.isEmpty

/-- Numeric view: `int`, `float` and `bool` carry a number, nothing else does. -/
def pyNum : PyVal → Option Rat
  | .bool b => some (if b then 1 else 0)
  | .int n => some (n : Rat)
  | .float q => some q
  | _ => none

/-- `v is None`. -/
def isNone : PyVal → Bool
  | .none => true
  | _ => false

/-- Values Python refuses to hash (used by `x in {…}` and dict lookups). -/
def isUnhashable : PyVal → Bool
  | .list _ => true
  | .dict _ => true
  | _ => false

mutual

/-- Nesting depth of a value, used to fuel `pyEq`. -/
def pyDepth : PyVal → Nat
  | .list xs => 1 + pyDepthList xs
  | .dict xs => 1 + pyDepthDict xs
  | _ => 1
termination_by structural v => v

/-- Depth of a list of values. -/
def pyDepthList : List PyVal → Nat
  | [] => 0
  | x :: xs => max (pyDepth x) (pyDepthList xs)
termination_by structural xs => xs

/-- Depth of the values of a dict. -/
def pyDepthDict : List (String × PyVal) → Nat
  | [] => 0
  | (_, v) :: xs => max (pyDepth v) (pyDepthDict xs)
termination_by structural xs => xs

end

/-- First-match association-list lookup (Python dict access). -/
def dlookup : List (String × PyVal) → String → Option PyVal
  | [], _ => none
  | (k, v) :: rest, key => if k == key then some v else dlookup rest key

/-- Python `==` between embedded values, with explicit recursion fuel so that
the definition is structural (hence kernel-computable): numbers compare
across `bool`/`int`/`float`, lists compare by length and elementwise `==`,
dicts by length and per-key value `==`, everything else by structure.
`pyEq` always supplies fuel exceeding the nesting depth of both sides, so
the `0` arm is never reached. -/
def pyEqF : Nat → PyVal → PyVal → Bool
  | 0, _, _ => false
  | fuel + 1, a, b =>
    match a, b with
    | .none, .none => true
    | .str s, .str t => s == t
    | .list xs, .list ys =>
      xs.length == ys.length && (xs.zip ys).all (fun p => pyEqF fuel p.1 p.2)
    | .dict xs, .dict ys =>
      xs.length == ys.length &&
        xs.all (fun p =>
          match dlookup ys p.1 with
          | some w => pyEqF fuel p.2 w
          | none => false)
    | x, y =>
      match pyNum x, pyNum y with
      | some p, some q => p == q
      | _, _ => false

/-- Python `==` (see `pyEqF`). -/
def pyEq (a b : PyVal) : Bool := pyEqF (pyDepth a + pyDepth b) a b


/-- Whitespace for `str.strip()` and the `\s` class (ASCII fragment). -/
def isPyWs (c : Char) : Bool :=
  c == ' ' || c == '\t' || c == '\n' || c == '\x0d' || c == '\x0b' || c == '\x0c'

/-- Strip leading and trailing whitespace from a character list. -/
def stripChars (l : List Char) : List Char :=
  ((l.dropWhile isPyWs).reverse.dropWhile isPyWs).reverse

/-- Python `str.strip()`. -/
def pyStrip (s : String) : String := String.mk (stripChars s.data)

/-- Strip only trailing whitespace (`str.rstrip()`). -/
def rstripStr (s : String) : String :=
  String.mk ((s.data.reverse.dropWhile isPyWs).reverse)

/-- Digit run to a natural number; `none` if empty or a non-digit appears. -/
def digitsVal : List Char → Option Nat
  | [] => some 0
  | c :: cs =>
    if c.isDigit then (digitsVal cs).map (fun n => (c.toNat - 48) * 10 ^ cs.length + n)
    else none

/-- `int(text)` on an already-stripped string: optional sign, then a nonempty
digit run consuming the whole string. -/
def parseInt (s : String) : Option Int :=
  let core : List Char → Option Int := fun l =>
    if l.isEmpty then none
    else match digitsVal l with
      | some n => some (n : Int)
      | none => none
  match s.data with
  | '-' :: rest => (core rest).map (fun n => -n)
  | '+' :: rest => core rest
  | l => core l

/-- `float(text)` restricted to the plain decimal forms the engine ever sees:
optional sign, integer digits and/or a dot with fraction digits, optional
decimal exponent. -/
def parseFloat (s : String) : Option Rat :=
  let expPart : List Char → Option Int := fun l =>
    match l with
    | [] => some 0
    | 'e' :: r | 'E' :: r =>
      (match r with
       | '-' :: d => (digitsVal d).bind (fun n => if d.isEmpty then none else some (-(n : Int)))
       | '+' :: d => (digitsVal d).bind (fun n => if d.isEmpty then none else some (n : Int))
       | d => (digitsVal d).bind (fun n => if d.isEmpty then none else some (n : Int)))
    | _ => none
  let mantissa : List Char → Option Rat := fun l =>
    let ip := l.takeWhile Char.isDigit
    let rest := l.dropWhile Char.isDigit
    match rest with
    | '.' :: r2 =>
      let fp := r2.takeWhile Char.isDigit
      let r3 := r2.dropWhile Char.isDigit
      if ip.isEmpty && fp.isEmpty then none
      else
        match digitsVal ip, digitsVal fp, expPart r3 with
        | some i, some f, some e =>
          let base : Rat := (i : Rat) + (f : Rat) / ((10 : Rat) ^ fp.length)
          some (if e ≥ 0 then base * (10 : Rat) ^ e.toNat else base / (10 : Rat) ^ (-e).toNat)
        | _, _, _ => none
    | r2 =>
      if ip.isEmpty then none
      else
        match digitsVal ip, expPart r2 with
        | some i, some e =>
          some (if e ≥ 0 then (i : Rat) * (10 : Rat) ^ e.toNat else (i : Rat) / (10 : Rat) ^ (-e).toNat)
        | _, _ => none
  match s.data with
  | '-' :: rest => (mantissa rest).map (fun q => -q)
  | '+' :: rest => mantissa rest
  | l => mantissa l

/-- `AssertionEngine._to_number`: numeric values pass through as float; a
string is stripped and parsed as an int unless it contains a dot, in which
case as a float; anything else gives `none`. -/
def toNumber (v : PyVal) : Option Rat :=
  match v with
  | .bool b => some (if b then 1 else 0)
  | .int n => some (n : Rat)
  | .float q => some q
  | .str s =>
    let text := pyStrip s
    if text == "" then none
    else if text.data.contains '.' then parseFloat text
    else (parseInt text).map (fun n => (n : Rat))
  | _ => none

/-- Decimal rendering of a Python float modelled as a rational: integral
values render as `n.0`, finite decimal fractions with their digits; other
rationals (unreachable from parsed floats) fall back to a fraction form. -/
def qRepr (q : Rat) : String :=
  if q.den = 1 then toString q.num ++ ".0"
  else
    match (List.range 31).find? (fun k => decide (k ≠ 0) && decide (q.den ∣ 10 ^ k)) with
    | some k =>
      let n := q.num.natAbs * 10 ^ k / q.den
      let ds := (toString n).data
      let padded := if ds.length ≤ k then List.replicate (k + 1 - ds.length) '0' ++ ds else ds
      (if q.num < 0 then "-" else "") ++
        String.mk (padded.take (padded.length - k)) ++ "." ++ String.mk (padded.drop (padded.length - k))
    | none => toString q.num ++ "/" ++ toString q.den

mutual

/-- Python `repr` for the embedded values (string escaping inside containers
is not modelled; no assertion message the theorems touch depends on it). -/
def pyReprAux : PyVal → String
  | .none => "None"
  | .bool true => "True"
  | .bool false => "False"
  | .int n => toString n
  | .float q => qRepr q
  | .str s => sqt ++ s ++ sqt
  | .list xs => "[" ++ pyReprList xs ++ "]"
  | .dict xs => "\x7b" ++ pyReprDict xs ++ "\x7d"
termination_by structural v => v

def pyReprList : List PyVal → String
  | [] => ""
  | [x] => pyReprAux x
  | x :: y :: xs => pyReprAux x ++ ", " ++ pyReprList (y :: xs)
termination_by structural xs => xs

def pyReprDict : List (String × PyVal) → String
  | [] => ""
  | [(k, v)] => sqt ++ k ++ sqt ++ ": " ++ pyReprAux v
  | (k, v) :: p :: ps => sqt ++ k ++ sqt ++ ": " ++ pyReprAux v ++ ", " ++ pyReprDict (p :: ps)
termination_by structural xs => xs

end

/-- Python `str(v)`. -/
def pyStr : PyVal → String
  | .str s => s
  | v => pyReprAux v

/-- `str(v or "")`. -/
def pyStrOr (v : PyVal) : String := if truthy v then pyStr v else ""

/-- `d.get(key)` (default `None`). -/
def dget (xs : List (String × PyVal)) (k : String) : PyVal := (dlookup xs k).getD .none

/-- `d.get(key, default)`. -/
def dgetD (xs : List (String × PyVal)) (k : String) (d : PyVal) : PyVal := (dlookup xs k).getD d

/-- `'X' object has no attribute 'attr'`. -/
def noAttrMsg (v : PyVal) (attr : String) : String :=
  sqt ++ typeName v ++ sqt ++ " object has no attribute " ++ sqt ++ attr ++ sqt

/-- `unhashable type: 'X'`. -/
def unhashableMsg (v : PyVal) : String := "unhashable type: " ++ sqt ++ typeName v ++ sqt

/-- `'op' not supported between instances of 'a' and 'b'`. -/
def cmpErrMsg (op t1 t2 : String) : String :=
  sqt ++ op ++ sqt ++ " not supported between instances of " ++ sqt ++ t1 ++ sqt ++ " and " ++ sqt ++ t2 ++ sqt

/-- `argument of type 'X' is not iterable`. -/
def notIterableMsg (v : PyVal) : String :=
  "argument of type " ++ sqt ++ typeName v ++ sqt ++ " is not iterable"

/-- `v.get(key)` on an arbitrary value: raises unless `v` is a dict. -/
def pyGet (v : PyVal) (k : String) : Except String PyVal :=
  match v with
  | .dict xs => .ok (dget xs k)
  | other => .error (noAttrMsg other "get")

/-- `str.replace(pat, rep)` on character lists, fuelled so the recursion is
structural; `replaceList` supplies fuel equal to the input length, which is
always sufficient since the (nonempty) patterns used consume at least one
character per step. -/
def replaceFuel (pat rep : List Char) : Nat → List Char → List Char
  | _, [] => []
  | 0, l => l
  | n + 1, c :: rest =>
    if pat.isPrefixOf (c :: rest) then rep ++ replaceFuel pat rep n ((c :: rest).drop pat.length)
    else c :: replaceFuel pat rep n rest

/-- `str.replace(pat, rep)` (left-to-right, non-overlapping). -/
def replaceList (pat rep l : List Char) : List Char := replaceFuel pat rep l.length l

/-- `str.split(sep)` for a one-character separator. -/
def splitOnChar (sep : Char) : List Char → List (List Char)
  | [] => [[]]
  | c :: rest =>
    if c == sep then [] :: splitOnChar sep rest
    else
      match splitOnChar sep rest with
      | h :: t => (c :: h) :: t
      | [] => [[c]]

/-- `sep.join(parts)` for a one-character separator. -/
def joinChar (sep : Char) : List (List Char) → List Char
  | [] => []
  | [l] => l
  | l :: m :: rest => l ++ sep :: joinChar sep (m :: rest)

/-- The backslash character. -/
def bsl : Char := Char.ofNat 92

/-- `AssertionEngine._normalize_line_breaks` on character lists: real and
backslash-escaped line-break variants to a newline, tabs to a space. -/
def normalizeLB (l : List Char) : List Char :=
  replaceList [bsl, 't'] [' ']
    (replaceList ['\t'] [' ']
      (replaceList [bsl, 'n'] ['\n']
        (replaceList [bsl, 'r'] ['\n']
          (replaceList [bsl, 'r', bsl, 'n'] ['\n']
            (replaceList ['\x0d'] ['\n']
              (replaceList ['\x0d', '\n'] ['\n'] l))))))

/-- `AssertionEngine._normalize_line_breaks`. -/
def normalizeLineBreaks (s : String) : String := String.mk (normalizeLB s.data)

/-- `AssertionEngine._sanitize_message`. -/
def sanitizeMessage (message : String) : String :=
  if message == "" then ""
  else
    let lines := (splitOnChar '\n' (normalizeLB message.data)).map stripChars
    String.mk (joinChar '\n' (lines.filter (fun l => !l.isEmpty)))

/-- `AssertionEngine._sanitize_value`. -/
def sanitizeValue (v : PyVal) : PyVal :=
  match v with
  | .str s =>
    .str (String.mk (joinChar '\n'
      ((splitOnChar '\n' (normalizeLB s.data)).map (fun l => (l.reverse.dropWhile isPyWs).reverse))))
  | other => other

/-- `AssertionEngine._stringify_for_message`. -/
def stringifyForMessage (v : PyVal) : String :=
  match v with
  | .float q => if q.den = 1 then toString q.num else qRepr q
  | other => pyStr other

/-- The range separators `~`, `-`, en-dash, em-dash. -/
def isSepChar (c : Char) : Bool := c == '~' || c == '-' || c == '–' || c == '—'

/-- Split a character list at every separator char. -/
def splitOnSepChars : List Char → List (List Char)
  | [] => [[]]
  | c :: rest =>
    if isSepChar c then [] :: splitOnSepChars rest
    else
      match splitOnSepChars rest with
      | h :: t => (c :: h) :: t
      | [] => [[c]]

/-- The parts produced by `re.split(r"\s*[~\-–—]\s*", text)` on an
already-stripped `text`: split at separator chars, each part stripped (the
regex consumes the whitespace adjacent to each separator). -/
def splitSeps (s : String) : List String :=
  (splitOnSepChars s.data).map (fun l => String.mk (stripChars l))

/-- `AssertionEngine._parse_range`. -/
def parseRange (v : PyVal) : Option (Rat × Rat) :=
  let text := pyStrip (pyStrOr v)
  if text == "" then none
  else
    match splitSeps text with
    | [p0, p1] =>
      match toNumber (.str p0), toNumber (.str p1) with
      | some lo, some hi => if lo ≤ hi then some (lo, hi) else some (hi, lo)
      | _, _ => none
    | _ => none

/-- Which comparison lambda `_compare_numeric` returns, if any. -/
def compareTagPure (op : PyVal) : Option String :=
  if pyEq op (.str "==") then some "=="
  else if pyEq op (.str "!=") then some "!="
  else if pyEq op (.str ">") then some ">"
  else if pyEq op (.str "<") then some "<"
  else if pyEq op (.str ">=") then some ">="
  else if pyEq op (.str "<=") then some "<=" else none

/-- `_compare_numeric(operator)`: the dict lookup raises on unhashable keys. -/
def compareTag (op : PyVal) : Except String (Option String) :=
  if isUnhashable op then .error (unhashableMsg op) else .ok (compareTagPure op)

/-- Apply a comparison lambda to `(actual, expected)` where `actual` is still
an arbitrary value and `expected` a float: `==`/`!=` never raise, the order
comparisons raise a `TypeError` for non-numeric `actual`. -/
def applyCmpPy (tag : String) (v : PyVal) (q : Rat) : Except String Bool :=
  if tag == "==" then .ok (pyEq v (.float q))
  else if tag == "!=" then .ok (!pyEq v (.float q))
  else
    match pyNum v with
    | some x =>
      .ok (if tag == ">" then decide (x > q)
        else if tag == "<" then decide (x < q)
        else if tag == ">=" then decide (x ≥ q) else decide (x ≤ q))
    | none => .error (cmpErrMsg tag (typeName v) "float")

/-- Comparison lambda on two floats. -/
def applyCmpQ (tag : String) (x q : Rat) : Bool :=
  if tag == "==" then x == q
  else if tag == "!=" then x != q
  else if tag == ">" then decide (x > q)
  else if tag == "<" then decide (x < q)
  else if tag == ">=" then decide (x ≥ q) else decide (x ≤ q)

/-- `lower <= actual <= upper` with float bounds: raises a `TypeError` when
`actual` is not numeric. -/
def pyBetween (lo hi : Rat) (v : PyVal) : Except String Bool :=
  match pyNum v with
  | some x => .ok (decide (lo ≤ x) && decide (x ≤ hi))
  | none => .error (cmpErrMsg "<=" "float" (typeName v))

/-- External collaborators of the assertion engine: the `jsonpath_ng`
resolver (`parse(path).find(data)`, errors meaning a raised exception),
`json.loads` (`none` meaning it raised), `json.dumps`, and `re.search`
(errors meaning `re.error`). -/
structure ExtDeps where
  resolve : PyVal → PyVal → Except String (List PyVal)
  jsonLoads : String → Option PyVal
  jsonDumps : PyVal → String
  reSearch : String → String → Except String Bool

/-- The verdict dict `_build_result` returns. -/
structure Verdict where
  type : PyVal
  result : String
  expected : PyVal
  actual : PyVal
  message : String
  operator : PyVal
  path : PyVal
  header : PyVal
  target : PyVal

/-- `AssertionEngine._build_result`. -/
def buildResult (t : PyVal) (passed : Bool) (expected actual : PyVal) (message : String)
    (a : List (String × PyVal)) : Verdict :=
  { type := t
    result := if passed then "PASS" else "FAIL"
    expected := sanitizeValue expected
    actual := sanitizeValue actual
    message := sanitizeMessage message
    operator := dget a "operator"
    path := dget a "path"
    header := dget a "header"
    target := dget a "target" }

/-- `AssertionEngine._is_not_empty`: `value not in (None, "", [])`. -/
def isNotEmpty (v : PyVal) : Bool :=
  !(pyEq v .none || pyEq v (.str "") || pyEq v (.list []))

/-- `AssertionEngine._normalize_expected`. -/
def normalizeExpected (ext : ExtDeps) (v : PyVal) : PyVal :=
  match v with
  | .str s =>
    let text := pyStrip s
    if text == "" then v
    else
      match ext.jsonLoads text with
      | some j => j
      | none => v
  | other => other

/-- Python substring test: `needle in hay` on strings. -/
def isSubList (n : List Char) : List Char → Bool
  | [] => n.isEmpty
  | c :: rest => n.isPrefixOf (c :: rest) || isSubList n rest

/-- ASCII fragment of `str.lower()` on one character (the range check
mirrors core `Char.toLower`). Python applies the full Unicode case mapping
(`Á` → `á`, and even one-to-many mappings such as `İ`), which is not
modelled here; on ASCII characters the two agree exactly. -/
def lowerChar (c : Char) : Char :=
  if 65 ≤ c.toNat ∧ c.toNat ≤ 90 then Char.ofNat (c.toNat + 32) else c

/-- ASCII fragment of `str.lower()`. Because Python's Unicode case mapping
is not modelled, every theorem whose conclusion depends on the lowered-key
fallback dict of `_run_header` carries an ASCII side condition
(`isAsciiStr`) on the strings being lowercased, under which this fragment
agrees with Python. -/
def lowerStr (s : String) : String := String.mk (s.data.map lowerChar)

/-- The character is ASCII (code point below 128). -/
def isAsciiChar (c : Char) : Bool := c.toNat < 128

/-- All characters of the string are ASCII — the domain on which the
embedded `lowerStr` coincides with Python `str.lower()`. -/
def isAsciiStr (s : String) : Bool := s.data.all isAsciiChar

/-- A Python dict with string keys, as the engine receives them. -/
abbrev PyDict := List (String × PyVal)

/-- `AssertionEngine._run_status_code`. -/
def runStatusCode (r : PyVal) (a : PyDict) : Except String Verdict :=
  let operator := (let o := dget a "operator"; if truthy o then o else .str "==")
  let expectedRaw := dget a "expected"
  match pyGet r "status_code" with
  | .error e => .error e
  | .ok actual =>
    if isNone actual then
      .ok (buildResult (.str "status_code") false expectedRaw actual "status_code missing" a)
    else if pyEq operator (.str "between") then
      match parseRange expectedRaw with
      | none => .ok (buildResult (.str "status_code") false expectedRaw actual "expected range required" a)
      | some (lo, hi) =>
        match pyBetween lo hi actual with
        | .error e => .error e
        | .ok passed =>
          .ok (buildResult (.str "status_code") passed
            (.str (qRepr lo ++ "~" ++ qRepr hi)) actual
            (if passed then "" else
              "status_code " ++ stringifyForMessage actual ++ " not in range " ++
                stringifyForMessage (.float lo) ++ "~" ++ stringifyForMessage (.float hi)) a)
    else
      match toNumber expectedRaw with
      | none => .ok (buildResult (.str "status_code") false expectedRaw actual "expected number required" a)
      | some expected =>
        match compareTag operator with
        | .error e => .error e
        | .ok none =>
          .ok (buildResult (.str "status_code") false (.float expected) actual
            ("unsupported operator: " ++ pyStr operator) a)
        | .ok (some tag) =>
          match applyCmpPy tag actual expected with
          | .error e => .error e
          | .ok passed =>
            .ok (buildResult (.str "status_code") passed (.float expected) actual
              (if passed then "" else
                "status_code " ++ stringifyForMessage actual ++ " " ++ pyStr operator ++ " " ++
                  stringifyForMessage (.float expected) ++ " failed") a)

/-- `AssertionEngine._run_response_time`. -/
def runResponseTime (r : PyVal) (a : PyDict) : Except String Verdict :=
  let operator := (let o := dget a "operator"; if truthy o then o else .str "<")
  let expectedRaw := dget a "expected"
  match pyGet r "elapsed_ms" with
  | .error e => .error e
  | .ok actual =>
    if isNone actual then
      .ok (buildResult (.str "response_time") false expectedRaw actual "elapsed_ms missing" a)
    else if pyEq operator (.str "between") then
      match parseRange expectedRaw with
      | none => .ok (buildResult (.str "response_time") false expectedRaw actual "expected range required" a)
      | some (lo, hi) =>
        match pyBetween lo hi actual with
        | .error e => .error e
        | .ok passed =>
          .ok (buildResult (.str "response_time") passed
            (.str (qRepr lo ++ "~" ++ qRepr hi)) actual
            (if passed then "" else
              "elapsed_ms " ++ stringifyForMessage actual ++ " not in range " ++
                stringifyForMessage (.float lo) ++ "~" ++ stringifyForMessage (.float hi)) a)
    else
      match toNumber expectedRaw with
      | none => .ok (buildResult (.str "response_time") false expectedRaw actual "expected number required" a)
      | some expected =>
        match compareTag operator with
        | .error e => .error e
        | .ok none =>
          .ok (buildResult (.str "response_time") false (.float expected) actual
            ("unsupported operator: " ++ pyStr operator) a)
        | .ok (some tag) =>
          match applyCmpPy tag actual expected with
          | .error e => .error e
          | .ok passed =>
            .ok (buildResult (.str "response_time") passed (.float expected) actual
              (if passed then "" else
                "elapsed_ms " ++ stringifyForMessage actual ++ " " ++ pyStr operator ++ " " ++
                  stringifyForMessage (.float expected) ++ " failed") a)

/-- `AssertionEngine._run_json_path`. -/
def runJsonPath (ext : ExtDeps) (r : PyVal) (a : PyDict) : Except String Verdict :=
  let operator := dget a "operator"
  let path := dget a "path"
  let expected := dget a "expected"
  let tryBlock : Except String (Sum Verdict (List PyVal)) :=
    match pyGet r "response_json" with
    | .error e => .error e
    | .ok jsonData =>
      if isNone jsonData then
        .ok (.inl (buildResult (.str "json_path") false expected .none "response_json is None" a))
      else
        match ext.resolve path jsonData with
        | .error e => .error e
        | .ok ms => .ok (.inr ms)
  match tryBlock with
  | .error e => .ok (buildResult (.str "json_path") false expected .none ("json_path error: " ++ e) a)
  | .ok (.inl v) => .ok v
  | .ok (.inr []) =>
    .ok (buildResult (.str "json_path") false expected .none (pyStr path ++ " not found") a)
  | .ok (.inr (m :: rest)) =>
    let actual := if rest.isEmpty then m else .list (m :: rest)
    if isUnhashable operator then .error (unhashableMsg operator)
    else if pyEq operator (.str "exists") || pyEq operator (.str "not_exists") then
      let passed := pyEq operator (.str "exists")
      .ok (buildResult (.str "json_path") passed operator m
        (if passed then ""
         else pyStr path ++ (if pyEq operator (.str "exists") then " not found" else " should not exist")) a)
    else if pyEq operator (.str "==") || pyEq operator (.str "equals") then
      let ev := normalizeExpected ext expected
      let passed := pyEq actual ev
      .ok (buildResult (.str "json_path") passed ev actual
        (if passed then ""
         else pyStr path ++ " " ++ stringifyForMessage actual ++ " != " ++ stringifyForMessage ev) a)
    else if pyEq operator (.str "not_null") then
      let ev := if isNone expected then .str "not_null" else expected
      let passed := (m :: rest).any isNotEmpty
      .ok (buildResult (.str "json_path") passed ev actual
        (if passed then "" else pyStr path ++ " is null or empty") a)
    else if [">", ">=", "<", "<=", "!="].any (fun s => pyEq operator (.str s)) then
      match toNumber expected with
      | none =>
        .ok (buildResult (.str "json_path") false expected actual "expected number required for comparison" a)
      | some en =>
        let actualNum : Option Rat :=
          match actual with
          | .bool b => some (if b then 1 else 0)
          | .int n => some (n : Rat)
          | .float q => some q
          | other => toNumber (.str (pyStr other))
        match actualNum with
        | none => .ok (buildResult (.str "json_path") false (.float en) actual "actual value is not numeric" a)
        | some an =>
          match compareTagPure operator with
          | none =>
            .ok (buildResult (.str "json_path") false expected actual
              ("unsupported operator: " ++ pyStr operator) a)
          | some tag =>
            let passed := applyCmpQ tag an en
            .ok (buildResult (.str "json_path") passed (.float en) actual
              (if passed then ""
               else pyStr path ++ " " ++ stringifyForMessage (.float an) ++ " " ++ pyStr operator ++ " " ++
                 stringifyForMessage (.float en) ++ " failed") a)
    else if pyEq operator (.str "contains") || pyEq operator (.str "not_contains") then
      let needle := pyStrOr expected
      let haystack := if isNone actual then "" else pyStr actual
      let found := isSubList needle.data haystack.data
      let passed := if pyEq operator (.str "contains") then found else !found
      .ok (buildResult (.str "json_path") passed expected actual
        (if passed then "" else pyStr path ++ " " ++ pyStr operator ++ " failed") a)
    else
      .ok (buildResult (.str "json_path") false expected actual
        ("unsupported operator: " ++ pyStr operator) a)

/-- `x in hay` for a string `x`: substring on strings, membership on
containers, `TypeError` otherwise. -/
def pyInVal (needle : String) (hay : PyVal) : Except String Bool :=
  match hay with
  | .str s => .ok (isSubList needle.data s.data)
  | .list xs => .ok (xs.any (fun x => pyEq x (.str needle)))
  | .dict xs => .ok (xs.any (fun p => p.1 == needle))
  | other => .error (notIterableMsg other)

/-- `AssertionEngine._run_response_body`. -/
def runResponseBody (ext : ExtDeps) (r : PyVal) (a : PyDict) : Except String Verdict :=
  let operator := dget a "operator"
  let expected := pyStrOr (dget a "expected")
  match pyGet r "response_text" with
  | .error e => .error e
  | .ok rt =>
    let text0 := if truthy rt then rt else .str ""
    let textE : Except String PyVal :=
      if truthy text0 then .ok text0
      else
        match pyGet r "response_json" with
        | .error e => .error e
        | .ok rj => .ok (if isNone rj then text0 else .str (ext.jsonDumps rj))
    match textE with
    | .error e => .error e
    | .ok text =>
      if pyEq operator (.str "contains") then
        match pyInVal expected text with
        | .error e => .error e
        | .ok found =>
          .ok (buildResult (.str "response_body") found (.str expected) text
            (if found then "" else "response body does not contain expected text") a)
      else if pyEq operator (.str "not_contains") then
        match pyInVal expected text with
        | .error e => .error e
        | .ok found =>
          .ok (buildResult (.str "response_body") (!found) (.str expected) text
            (if found then "response body contains expected text" else "") a)
      else if pyEq operator (.str "starts_with") then
        match text with
        | .str s =>
          let passed := expected.data.isPrefixOf s.data
          .ok (buildResult (.str "response_body") passed (.str expected) text
            (if passed then "" else "response body does not start with expected text") a)
        | other => .error (noAttrMsg other "startswith")
      else if pyEq operator (.str "ends_with") then
        match text with
        | .str s =>
          let passed := expected.data.reverse.isPrefixOf s.data.reverse
          .ok (buildResult (.str "response_body") passed (.str expected) text
            (if passed then "" else "response body does not end with expected text") a)
        | other => .error (noAttrMsg other "endswith")
      else if pyEq operator (.str "matches_regex") then
        match text with
        | .str s =>
          match ext.reSearch expected s with
          | .error e =>
            .ok (buildResult (.str "response_body") false (.str expected) text ("regex error: " ++ e) a)
          | .ok found =>
            .ok (buildResult (.str "response_body") found (.str expected) text
              (if found then "" else "regex not matched") a)
        | other => .error ("expected string or bytes-like object, got " ++ sqt ++ typeName other ++ sqt)
      else
        .ok (buildResult (.str "response_body") false (.str expected) text
          ("unsupported operator: " ++ pyStr operator) a)

/-- `str(assertion.get("header") or assertion.get("target") or "")`. -/
def headerNameOf (a : PyDict) : String :=
  let h := dget a "header"
  if truthy h then pyStr h
  else (let t := dget a "target"; if truthy t then pyStr t else "")

/-- The header-value lookup of `_run_header` once `headers` is a dict:
`str(headers.get(name) or headers.get(name.lower()) or "")`, falling back to
a last-wins lower-cased-key dict when empty. -/
def headerActual (hs : PyDict) (headerName : String) : String :=
  let v1 := dget hs headerName
  let pick :=
    if truthy v1 then v1
    else (let v2 := dget hs (lowerStr headerName); if truthy v2 then v2 else .str "")
  let a1 := pyStr pick
  if a1 == "" then
    let lowered := hs.map (fun p => (lowerStr p.1, p.2))
    pyStr ((dlookup lowered.reverse (lowerStr headerName)).getD (.str ""))
  else a1

/-- `AssertionEngine._run_header`. -/
def runHeader (r : PyVal) (a : PyDict) : Except String Verdict :=
  let operator := dget a "operator"
  let expected := pyStrOr (dget a "expected")
  let headerName := headerNameOf a
  match pyGet r "headers" with
  | .error e => .error e
  | .ok hv =>
    let headersVal := if truthy hv then hv else .dict []
    let actualE : Except String String :=
      if headerName == "" then .ok ""
      else
        match headersVal with
        | .dict hs => .ok (headerActual hs headerName)
        | other => .error (noAttrMsg other "get")
    match actualE with
    | .error e => .error e
    | .ok actual =>
      if pyEq operator (.str "contains") then
        let passed := isSubList (lowerStr expected).data (lowerStr actual).data
        .ok (buildResult (.str "header") passed (.str expected) (.str actual)
          (if passed then "" else "header " ++ headerName ++ " missing expected content") a)
      else if pyEq operator (.str "not_contains") then
        let passed := !(isSubList (lowerStr expected).data (lowerStr actual).data)
        .ok (buildResult (.str "header") passed (.str expected) (.str actual)
          (if passed then "" else "header " ++ headerName ++ " contains expected content") a)
      else if pyEq operator (.str "==") then
        let passed := actual == expected
        .ok (buildResult (.str "header") passed (.str expected) (.str actual)
          (if passed then "" else "header " ++ headerName ++ " " ++ actual ++ " != " ++ expected) a)
      else if pyEq operator (.str "!=") then
        let passed := actual != expected
        .ok (buildResult (.str "header") passed (.str expected) (.str actual)
          (if passed then "" else "header " ++ headerName ++ " " ++ actual ++ " == " ++ expected) a)
      else if pyEq operator (.str "exists") then
        let passed := actual != ""
        .ok (buildResult (.str "header") passed (.str expected) (.str actual)
          (if passed then "" else "header " ++ headerName ++ " not found") a)
      else if pyEq operator (.str "not_exists") then
        let passed := actual == ""
        .ok (buildResult (.str "header") passed (.str expected) (.str actual)
          (if passed then "" else "header " ++ headerName ++ " should not exist") a)
      else
        .ok (buildResult (.str "header") false (.str expected) (.str actual)
          ("unsupported operator: " ++ pyStr operator) a)

/-- The body of `AssertionEngine._run_single` (the `try` block): dispatch on
the assertion type; an `.error` is an exception reaching the `except`. -/
def runSingleE (ext : ExtDeps) (r : PyVal) (a : PyDict) : Except String Verdict :=
  let t := dget a "type"
  if pyEq t (.str "status_code") then runStatusCode r a
  else if pyEq t (.str "response_body") then runResponseBody ext r a
  else if pyEq t (.str "json_path") then runJsonPath ext r a
  else if pyEq t (.str "header") then runHeader r a
  else if pyEq t (.str "response_time") then runResponseTime r a
  else .ok (buildResult t false (dget a "expected") .none "不支持的断言类型" a)

/-- `AssertionEngine._run_single`: total, because the `except` arm converts
any exception into a FAIL verdict. -/
def runSingle (ext : ExtDeps) (r : PyVal) (a : PyDict) : Verdict :=
  match runSingleE ext r a with
  | .ok v => v
  | .error e => buildResult (dget a "type") false (dget a "expected") .none ("exception: " ++ e) a

/-- Iteration of `AssertionEngine.run_assertions` over an assertion list;
a non-dict item raises out of the engine (`.get` fails in the handler too). -/
def runAssertList (ext : ExtDeps) (r : PyVal) : List PyVal → Except String (List Verdict)
  | [] => .ok []
  | (.dict a) :: rest =>
    match runAssertList ext r rest with
    | .ok vs => .ok (runSingle ext r a :: vs)
    | .error e => .error e
  | other :: _ => .error (noAttrMsg other "get")

/-- `AssertionEngine.run_assertions` on an arbitrary `assertions` value:
iterating a non-iterable raises; iterating a string or dict yields strings,
whose `.get` raises. -/
def runAssertions (ext : ExtDeps) (r : PyVal) (asserts : PyVal) : Except String (List Verdict) :=
  match asserts with
  | .list items => runAssertList ext r items
  | .str s => if s == "" then .ok [] else .error (noAttrMsg (.str s) "get")
  | .dict [] => .ok []
  | .dict ((k, _) :: _) => .error (noAttrMsg (.str k) "get")
  | other => .error (sqt ++ typeName other ++ sqt ++ " object is not iterable")

/-- The case-result record both batch executors return. -/
structure CaseRecord where
  case_id : PyVal
  name : PyVal
  request : PyVal
  assertions : PyVal
  response : PyVal
  assertion_results : List Verdict
  result : String
  logs : List PyVal
  db_assertions : List PyVal
  attachments : List PyVal

/-- `v is False`: identity with the `False` object. -/
def isFalseLit : PyVal → Bool
  | .bool false => true
  | _ => false

/-- `_run_single_case`, shared body of `BatchExecutor` and
`BatchThreadExecutor` (they differ only in the `error_type` string);
`send` is the transport call, `runAsserts` the engine invocation, and an
`.error` from either is the exception the `except` arm converts. -/
def runSingleCaseWith (send : PyVal → Except String PyVal)
    (runAsserts : PyVal → PyVal → Except String (List Verdict))
    (errType : String) (caseDict : PyDict) : CaseRecord :=
  let requestData := dgetD caseDict "request" (.dict [])
  let asserts := dgetD caseDict "assertions" (.list [])
  let body : Except String (PyVal × List Verdict × String) :=
    match send requestData with
    | .error e => .error e
    | .ok resp =>
      match runAsserts resp asserts with
      | .error e => .error e
      | .ok ars =>
        match pyGet resp "success" with
        | .error e => .error e
        | .ok sv =>
          let result :=
            if isFalseLit sv then "FAIL"
            else if ars.all (fun v => v.result == "PASS") then "PASS" else "FAIL"
          .ok (resp, ars, result)
  match body with
  | .ok (resp, ars, result) =>
    { case_id := dget caseDict "case_id", name := dget caseDict "name"
      request := requestData, assertions := asserts, response := resp
      assertion_results := ars, result := result
      logs := [], db_assertions := [], attachments := [] }
  | .error e =>
    { case_id := dget caseDict "case_id", name := dget caseDict "name"
      request := requestData, assertions := asserts
      response := .dict [("success", .bool false), ("error_type", .str errType),
        ("error_message", .str e)]
      assertion_results := [], result := "FAIL"
      logs := [], db_assertions := [], attachments := [] }

/-- `BatchExecutor._run_single_case`. -/
def batchRunSingleCase (send : PyVal → Except String PyVal)
    (runAsserts : PyVal → PyVal → Except String (List Verdict)) (caseDict : PyDict) : CaseRecord :=
  runSingleCaseWith send runAsserts "BatchExecutorError" caseDict

/-- `BatchThreadExecutor._run_single_case`. -/
def threadRunSingleCase (send : PyVal → Except String PyVal)
    (runAsserts : PyVal → PyVal → Except String (List Verdict)) (caseDict : PyDict) : CaseRecord :=
  runSingleCaseWith send runAsserts "BatchThreadExecutorError" caseDict

/-- `BatchExecutor.run_cases`. -/
def batchRunCases (send : PyVal → Except String PyVal)
    (runAsserts : PyVal → PyVal → Except String (List Verdict))
    (cases : List PyDict) : List CaseRecord :=
  cases.map (batchRunSingleCase send runAsserts)

/-- The summary dict of `result_summary.build_summary`. -/
structure BatchSummary where
  total : Nat
  pass : Nat
  fail : Nat

/-- `result_summary.build_summary`. -/
def build_summary (cases : List CaseRecord) : BatchSummary :=
  let total := cases.length
  let passed := cases.countP (fun c => c.result == "PASS")
  { total := total, pass := passed, fail := total - passed }

/-! ## Shared lemmas -/

theorem pyEq_str (s t : String) : pyEq (.str s) (.str t) = (s == t) := rfl

theorem runSingle_of_ok {ext : ExtDeps} {r : PyVal} {a : PyDict} {v : Verdict}
    (h : runSingleE ext r a = .ok v) : runSingle ext r a = v := by
  unfold runSingle
  rw [h]

theorem runSingle_of_error {ext : ExtDeps} {r : PyVal} {a : PyDict} {e : String}
    (h : runSingleE ext r a = .error e) :
    runSingle ext r a =
      buildResult (dget a "type") false (dget a "expected") .none ("exception: " ++ e) a := by
  unfold runSingle
  rw [h]

theorem buildResult_result (t : PyVal) (p : Bool) (ex ac : PyVal) (m : String) (a : PyDict) :
    (buildResult t p ex ac m a).result = if p then "PASS" else "FAIL" := rfl

/-! ## C9 -/

/-- Claim C9: for every list of case records, `build_summary` satisfies
`total = pass + fail = count(cases)`, where `pass` counts exactly the records
whose `result` is `"PASS"` and `fail` counts all the others. -/
theorem c9_summary_consistent (cases : List CaseRecord) :
    (build_summary cases).total = (build_summary cases).pass + (build_summary cases).fail ∧
    (build_summary cases).total = cases.length ∧
    (build_summary cases).pass = (cases.filter (fun c => c.result == "PASS")).length ∧
    (build_summary cases).fail = (cases.filter (fun c => !(c.result == "PASS"))).length := by
  refine ⟨?_, rfl, ?_, ?_⟩
  · have hle : cases.countP (fun c => c.result == "PASS") ≤ cases.length :=
      List.countP_le_length _
    simp only [build_summary]
    omega
  · simp [build_summary, List.countP_eq_length_filter]
  · have hsplit : cases.countP (fun c => c.result == "PASS") +
        cases.countP (fun c => !(c.result == "PASS")) = cases.length := by
      simpa using (List.length_eq_countP_add_countP (l := cases) (fun c => c.result == "PASS")).symm
    simp only [build_summary, List.countP_eq_length_filter] at *
    omega

/-! ## Concrete fixtures used by closed theorems and witnesses -/

/-- External dependencies whose resolver finds no match. -/
def extNoMatch : ExtDeps :=
  { resolve := fun _ _ => .ok []
    jsonLoads := fun _ => none
    jsonDumps := fun _ => "null"
    reSearch := fun _ _ => .ok false }

/-- The real engine (`AssertionEngine.run_assertions`) under `extNoMatch`,
in the shape the executors call it. -/
def engineNoMatch : PyVal → PyVal → Except String (List Verdict) :=
  fun r asserts => runAssertions extNoMatch r asserts

/-- A transport returning a completed exchange whose `success` is `False`. -/
def sendSuccessFalse : PyVal → Except String PyVal :=
  fun _ => .ok (.dict [("success", .bool false)])

/-- A transport that raises `boom`. -/
def sendRaises : PyVal → Except String PyVal := fun _ => .error "boom"

/-- A case with one (status_code) assertion. -/
def caseOneAssertion : PyDict :=
  [("case_id", .str "1"),
   ("assertions", .list [.dict [("type", .str "status_code"), ("expected", .int 200)]])]

/-! ## C1 -/

/-- Claim C1 counterexample: a case whose transport result has
`success = False` and whose assertion list is nonempty gets `result = FAIL`,
but its `assertion_results` is NOT the empty list — the executor runs the
assertion engine before looking at `success`, so the record carries one
verdict per assertion. -/
theorem c1_counterexample :
    (batchRunSingleCase sendSuccessFalse engineNoMatch caseOneAssertion).result = "FAIL" ∧
    pyGet (batchRunSingleCase sendSuccessFalse engineNoMatch caseOneAssertion).response "success" =
      .ok (.bool false) ∧
    (batchRunSingleCase sendSuccessFalse engineNoMatch caseOneAssertion).assertion_results.length = 1 :=
  ⟨rfl, rfl, rfl⟩

/-- Claim C1 (amended): when the transport result has `success = False` the
case record has `result = "FAIL"` regardless of the verdicts, but assertions
are still evaluated: `assertion_results` is exactly the engine's output for
the case's assertion list (and the transport result is echoed unchanged). -/
theorem c1_amended (send : PyVal → Except String PyVal)
    (runAsserts : PyVal → PyVal → Except String (List Verdict))
    (errType : String) (caseDict : PyDict) (resp : PyVal) (ars : List Verdict)
    (h1 : send (dgetD caseDict "request" (.dict [])) = .ok resp)
    (h2 : runAsserts resp (dgetD caseDict "assertions" (.list [])) = .ok ars)
    (h3 : pyGet resp "success" = .ok (.bool false)) :
    (runSingleCaseWith send runAsserts errType caseDict).result = "FAIL" ∧
    (runSingleCaseWith send runAsserts errType caseDict).assertion_results = ars ∧
    (runSingleCaseWith send runAsserts errType caseDict).response = resp := by
  simp [runSingleCaseWith, h1, h2, h3, isFalseLit]

/-- Witness for C1 (amended) at a concrete input: transport succeeds with
`success = False`, one assertion, and the record keeps the single verdict. -/
theorem c1_amended_witness :
    (batchRunSingleCase sendSuccessFalse engineNoMatch caseOneAssertion).result = "FAIL" ∧
    (batchRunSingleCase sendSuccessFalse engineNoMatch caseOneAssertion).assertion_results =
      [runSingle extNoMatch (.dict [("success", .bool false)])
        [("type", .str "status_code"), ("expected", .int 200)]] ∧
    (batchRunSingleCase sendSuccessFalse engineNoMatch caseOneAssertion).response =
      .dict [("success", .bool false)] :=
  c1_amended sendSuccessFalse engineNoMatch "BatchExecutorError" caseOneAssertion
    (.dict [("success", .bool false)])
    [runSingle extNoMatch (.dict [("success", .bool false)])
      [("type", .str "status_code"), ("expected", .int 200)]]
    rfl rfl rfl

/-! ## C3 -/

/-- Claim C3 counterexample: when the transport raises, the synthetic
failure record's `error_type` is `"BatchExecutorError"` (and
`"BatchThreadExecutorError"` for the threaded executor), not the
`"CaseExecutorError"` the claim states. -/
theorem c3_counterexample :
    pyGet (batchRunSingleCase sendRaises engineNoMatch caseOneAssertion).response "error_type" =
      .ok (.str "BatchExecutorError") ∧
    pyGet (threadRunSingleCase sendRaises engineNoMatch caseOneAssertion).response "error_type" =
      .ok (.str "BatchThreadExecutorError") ∧
    ¬ pyGet (batchRunSingleCase sendRaises engineNoMatch caseOneAssertion).response "error_type" =
        .ok (.str "CaseExecutorError") ∧
    ¬ pyGet (threadRunSingleCase sendRaises engineNoMatch caseOneAssertion).response "error_type" =
        .ok (.str "CaseExecutorError") := by
  refine ⟨rfl, rfl, ?_, ?_⟩
  · intro h
    have hb : pyGet (batchRunSingleCase sendRaises engineNoMatch caseOneAssertion).response
        "error_type" = .ok (.str "BatchExecutorError") := rfl
    have h2 := hb.symm.trans h
    injection h2 with h3
    injection h3 with h4
    exact absurd h4 (by decide)
  · intro h
    have hb : pyGet (threadRunSingleCase sendRaises engineNoMatch caseOneAssertion).response
        "error_type" = .ok (.str "BatchThreadExecutorError") := rfl
    have h2 := hb.symm.trans h
    injection h2 with h3
    injection h3 with h4
    exact absurd h4 (by decide)

/-- Claim C3 (amended): any exception from the transport call, the engine
invocation, or the `success` lookup is caught by `_run_single_case` and
converted into a record with `response.success = False`,
`error_type = "BatchExecutorError"` for `BatchExecutor` (respectively
`"BatchThreadExecutorError"` for `BatchThreadExecutor`),
`error_message = str(exception)`, `result = "FAIL"` and
`assertion_results = []`; neither executor raises to its caller. -/
theorem c3_amended (send : PyVal → Except String PyVal)
    (runAsserts : PyVal → PyVal → Except String (List Verdict))
    (caseDict : PyDict) (e : String)
    (h : send (dgetD caseDict "request" (.dict [])) = .error e ∨
      (∃ resp, send (dgetD caseDict "request" (.dict [])) = .ok resp ∧
        runAsserts resp (dgetD caseDict "assertions" (.list [])) = .error e) ∨
      (∃ resp ars, send (dgetD caseDict "request" (.dict [])) = .ok resp ∧
        runAsserts resp (dgetD caseDict "assertions" (.list [])) = .ok ars ∧
        pyGet resp "success" = .error e)) :
    (batchRunSingleCase send runAsserts caseDict).response =
      .dict [("success", .bool false), ("error_type", .str "BatchExecutorError"),
        ("error_message", .str e)] ∧
    (batchRunSingleCase send runAsserts caseDict).result = "FAIL" ∧
    (batchRunSingleCase send runAsserts caseDict).assertion_results = [] ∧
    (threadRunSingleCase send runAsserts caseDict).response =
      .dict [("success", .bool false), ("error_type", .str "BatchThreadExecutorError"),
        ("error_message", .str e)] ∧
    (threadRunSingleCase send runAsserts caseDict).result = "FAIL" ∧
    (threadRunSingleCase send runAsserts caseDict).assertion_results = [] := by
  rcases h with h1 | ⟨resp, h1, h2⟩ | ⟨resp, ars, h1, h2, h3⟩
  · simp [batchRunSingleCase, threadRunSingleCase, runSingleCaseWith, h1]
  · simp [batchRunSingleCase, threadRunSingleCase, runSingleCaseWith, h1, h2]
  · simp [batchRunSingleCase, threadRunSingleCase, runSingleCaseWith, h1, h2, h3]

/-- Witness for C3 (amended) at a concrete input: the transport raises
`boom`. -/
theorem c3_amended_witness :
    (batchRunSingleCase sendRaises engineNoMatch caseOneAssertion).response =
      .dict [("success", .bool false), ("error_type", .str "BatchExecutorError"),
        ("error_message", .str "boom")] ∧
    (batchRunSingleCase sendRaises engineNoMatch caseOneAssertion).result = "FAIL" ∧
    (batchRunSingleCase sendRaises engineNoMatch caseOneAssertion).assertion_results = [] ∧
    (threadRunSingleCase sendRaises engineNoMatch caseOneAssertion).response =
      .dict [("success", .bool false), ("error_type", .str "BatchThreadExecutorError"),
        ("error_message", .str "boom")] ∧
    (threadRunSingleCase sendRaises engineNoMatch caseOneAssertion).result = "FAIL" ∧
    (threadRunSingleCase sendRaises engineNoMatch caseOneAssertion).assertion_results = [] :=
  c3_amended sendRaises engineNoMatch caseOneAssertion "boom" (Or.inl rfl)

/-! ## C2 -/

/-- Response whose body decoded to the empty JSON object. -/
def respEmptyJson : PyVal := .dict [("response_json", .dict [])]

/-- A `json_path` `not_exists` assertion on `$.a`. -/
def assertNotExists : PyDict :=
  [("type", .str "json_path"), ("path", .str "$.a"), ("operator", .str "not_exists")]

/-- External dependencies whose resolver finds exactly one match. -/
def extOneMatch : ExtDeps :=
  { resolve := fun _ _ => .ok [.int 1]
    jsonLoads := fun _ => none
    jsonDumps := fun _ => "null"
    reSearch := fun _ _ => .ok false }

/-- A `json_path` `exists` assertion on `$.a`. -/
def assertExistsPath : PyDict :=
  [("type", .str "json_path"), ("path", .str "$.a"), ("operator", .str "exists")]

/-- Claim C2 (code bug evaluation): with a non-`None` `response_json` and a
path resolving to zero matches, the `not_exists` assertion FAILs with
message `$.a not found` — the `if not matches` guard returns before the
`exists`/`not_exists` branch can treat the absence as a valid outcome (the
same guard also preempts `exists`, which gets the generic not-found FAIL).
The remaining conjuncts close out every other avenue: with a match found
`not_exists` FAILs with `should not exist`, and with a `None`
`response_json` it FAILs before resolution — so under the code `not_exists`
can never PASS at all. -/
theorem c2_not_exists_zero_matches_fails :
    (runSingle extNoMatch respEmptyJson assertNotExists).result = "FAIL" ∧
    (runSingle extNoMatch respEmptyJson assertNotExists).message = "$.a not found" ∧
    extNoMatch.resolve (.str "$.a") (.dict []) = .ok [] ∧
    (runSingle extNoMatch respEmptyJson assertExistsPath).result = "FAIL" ∧
    (runSingle extNoMatch respEmptyJson assertExistsPath).message = "$.a not found" ∧
    (runSingle extOneMatch respEmptyJson assertNotExists).result = "FAIL" ∧
    (runSingle extOneMatch respEmptyJson assertNotExists).message = "$.a should not exist" ∧
    (runSingle extNoMatch (.dict [("response_json", .none)]) assertNotExists).result = "FAIL" ∧
    (runSingle extNoMatch (.dict [("response_json", .none)]) assertNotExists).message =
      "response_json is None" :=
  ⟨rfl, rfl, rfl, rfl, rfl, rfl, rfl, rfl, rfl⟩

/-! ## C4 -/

/-- Claim C4: `_run_single` never raises — it is total, and whenever its
`try` body raises an exception `e`, the `except` arm converts it into a FAIL
verdict whose message is `exception: <description>` (passed through the
message sanitizer of `_build_result`). -/
theorem c4_exception_to_fail_verdict (ext : ExtDeps) (r : PyVal) (a : PyDict) (e : String)
    (h : runSingleE ext r a = .error e) :
    runSingle ext r a =
      buildResult (dget a "type") false (dget a "expected") .none ("exception: " ++ e) a ∧
    (runSingle ext r a).result = "FAIL" ∧
    (runSingle ext r a).message = sanitizeMessage ("exception: " ++ e) := by
  have h1 := runSingle_of_error h
  refine ⟨h1, ?_, ?_⟩ <;> rw [h1] <;> rfl

/-- A response whose `status_code` is the string `x`. -/
def respBadStatus : PyVal := .dict [("status_code", .str "x")]

/-- A `status_code between 1~2` assertion. -/
def assertBetween12 : PyDict :=
  [("type", .str "status_code"), ("operator", .str "between"), ("expected", .str "1~2")]

/-- Witness for C4 at a concrete input: `1.0 <= "x"` raises a `TypeError`
inside the `try` body, and the verdict is the converted FAIL. -/
theorem c4_witness :
    runSingle extNoMatch respBadStatus assertBetween12 =
      buildResult (dget assertBetween12 "type") false (dget assertBetween12 "expected") .none
        ("exception: " ++ cmpErrMsg "<=" "float" "str") assertBetween12 ∧
    (runSingle extNoMatch respBadStatus assertBetween12).result = "FAIL" ∧
    (runSingle extNoMatch respBadStatus assertBetween12).message =
      sanitizeMessage ("exception: " ++ cmpErrMsg "<=" "float" "str") :=
  c4_exception_to_fail_verdict extNoMatch respBadStatus assertBetween12
    (cmpErrMsg "<=" "float" "str") rfl

/-! ## C7 -/

/-- Claim C7: a `json_path` `not_null` assertion whose path resolves to one
or more matches PASSes iff at least one raw matched value is not `None`, the
empty string, or the empty list — even when other matches are empty. -/
theorem c7_not_null_any (ext : ExtDeps) (r : PyVal) (a : PyDict) (j m : PyVal) (ms : List PyVal)
    (hty : dget a "type" = .str "json_path")
    (hop : dget a "operator" = .str "not_null")
    (hj : pyGet r "response_json" = .ok j)
    (hjn : isNone j = false)
    (hres : ext.resolve (dget a "path") j = .ok (m :: ms)) :
    ((runSingle ext r a).result = "PASS") ↔ ((m :: ms).any isNotEmpty = true) := by
  have hr : (runSingle ext r a).result = if (m :: ms).any isNotEmpty then "PASS" else "FAIL" := by
    simp [runSingle, runSingleE, hty, runJsonPath, hj, hjn, hres, hop, pyEq_str,
      isUnhashable, buildResult]
  rw [hr]
  cases hAny : (m :: ms).any isNotEmpty <;> simp

/-- External dependencies resolving every path to the three matches
`["", None, "x"]`. -/
def extThreeMatches : ExtDeps :=
  { resolve := fun _ _ => .ok [.str "", .none, .str "x"]
    jsonLoads := fun _ => none
    jsonDumps := fun _ => "null"
    reSearch := fun _ _ => .ok false }

/-- A `json_path` `not_null` assertion on `$.a`. -/
def assertNotNull : PyDict :=
  [("type", .str "json_path"), ("path", .str "$.a"), ("operator", .str "not_null")]

/-- Witness for C7 at a concrete input: matches `["", None, "x"]` — two
empty, one not — give PASS. -/
theorem c7_witness :
    ((runSingle extThreeMatches respEmptyJson assertNotNull).result = "PASS") ↔
      (([.str "", .none, .str "x"] : List PyVal).any isNotEmpty = true) :=
  c7_not_null_any extThreeMatches respEmptyJson assertNotNull (.dict []) (.str "")
    [.none, .str "x"] rfl rfl rfl rfl rfl

/-! ## C6 -/

theorem pyStrOr_str (s : String) : pyStrOr (.str s) = s := by
  by_cases h : s = ""
  · subst h; rfl
  · simp [pyStrOr, truthy, pyStr, h]

theorem isNone_eq_false_of_pyNum {w : PyVal} {n : Rat} (h : pyNum w = some n) :
    isNone w = false := by
  cases w <;> simp_all [pyNum, isNone]

/-- `_parse_range` on a string whose (stripped) split yields two numeric
halves: the bounds come back ordered, whatever order they were supplied in. -/
theorem parseRange_split (s p q : String) (x y : Rat)
    (hs : splitSeps (pyStrip s) = [p, q])
    (hp : toNumber (.str p) = some x) (hq : toNumber (.str q) = some y) :
    parseRange (.str s) = some (min x y, max x y) := by
  have hne : (pyStrip s == "") = false := by
    cases hb : pyStrip s == ""
    · rfl
    · exfalso
      have h0 := eq_of_beq hb
      rw [h0] at hs
      simp [splitSeps, splitOnSepChars, stripChars] at hs
  unfold parseRange
  rw [pyStrOr_str]
  simp only [hne, Bool.false_eq_true, if_false, hs, hp, hq]
  split_ifs with h
  · rw [min_eq_left h, max_eq_right h]
  · push_neg at h
    rw [min_eq_right h.le, max_eq_left h.le]

/-- A `status_code between` assertion with the given expected string. -/
def mkStatusBetween (e : String) : PyDict :=
  [("type", .str "status_code"), ("operator", .str "between"), ("expected", .str e)]

/-- Claim C6: for an expected range string splitting into two numeric halves
and a numeric actual `status_code`, `between` is symmetric in the bounds —
the reversed range gives the identical verdict — and the test is inclusive
on the smaller..larger interval. -/
theorem c6_between_symmetric (ext : ExtDeps) (r w : PyVal) (n x y : Rat) (s t p q : String)
    (hw : pyGet r "status_code" = .ok w) (hn : pyNum w = some n)
    (hs : splitSeps (pyStrip s) = [p, q]) (ht : splitSeps (pyStrip t) = [q, p])
    (hp : toNumber (.str p) = some x) (hq : toNumber (.str q) = some y) :
    runSingle ext r (mkStatusBetween s) = runSingle ext r (mkStatusBetween t) ∧
    ((runSingle ext r (mkStatusBetween s)).result = "PASS" ↔
      (min x y ≤ n ∧ n ≤ max x y)) := by
  have hno : isNone w = false := isNone_eq_false_of_pyNum hn
  have hrs : parseRange (.str s) = some (min x y, max x y) := parseRange_split s p q x y hs hp hq
  have hrt : parseRange (.str t) = some (min x y, max x y) := by
    rw [parseRange_split t q p y x ht hq hp, min_comm, max_comm]
  have okS : runSingleE ext r (mkStatusBetween s) = runSingleE ext r (mkStatusBetween t) := by
    simp [runSingleE, mkStatusBetween, runStatusCode, dget, dlookup, hw, hno, hrs, hrt,
      pyBetween, hn, pyEq_str, truthy, buildResult]
  have hresS : (runSingle ext r (mkStatusBetween s)).result =
      if decide (min x y ≤ n) && decide (n ≤ max x y) then "PASS" else "FAIL" := by
    simp [runSingle, runSingleE, mkStatusBetween, runStatusCode, dget, dlookup, hw, hno, hrs,
      pyBetween, hn, pyEq_str, truthy, buildResult]
  have okv : ∃ v, runSingleE ext r (mkStatusBetween s) = .ok v := by
    simp [runSingleE, mkStatusBetween, runStatusCode, dget, dlookup, hw, hno, hrs,
      pyBetween, hn, pyEq_str, truthy]
  refine ⟨?_, ?_⟩
  · obtain ⟨v, hv⟩ := okv
    rw [runSingle_of_ok hv, runSingle_of_ok (okS.symm.trans hv)]
  · rw [hresS]
    by_cases hc : min x y ≤ n ∧ n ≤ max x y
    · simp [hc.1, hc.2]
    · rcases Decidable.not_and_iff_or_not.mp hc with h1 | h1 <;> simp [h1]

/-- The response with `status_code = 300`. -/
def respStatus300 : PyVal := .dict [("status_code", .int 300)]

/-- Witness for C6 at the spec's example: `between "500~200"` against
`status_code = 300` equals `between "200~500"` and PASSes. -/
theorem c6_witness :
    runSingle extNoMatch respStatus300 (mkStatusBetween "500~200") =
      runSingle extNoMatch respStatus300 (mkStatusBetween "200~500") ∧
    ((runSingle extNoMatch respStatus300 (mkStatusBetween "500~200")).result = "PASS" ↔
      (min (500 : Rat) 200 ≤ 300 ∧ (300 : Rat) ≤ max (500 : Rat) 200)) :=
  c6_between_symmetric extNoMatch respStatus300 (.int 300) 300 500 200 "500~200" "200~500"
    "500" "200" rfl (by decide) (by decide) (by decide) (by decide) (by decide)

/-! ## C8 -/

theorem dropWhile_dropWhile (p : Char → Bool) (l : List Char) :
    (l.dropWhile p).dropWhile p = l.dropWhile p := by
  induction l with
  | nil => rfl
  | cons c t ih =>
    cases hc : p c
    · simp [List.dropWhile_cons, hc]
    · simp [List.dropWhile_cons, hc, ih]

theorem head_dropWhile_not (p : Char → Bool) (l : List Char) (x : Char) (t : List Char)
    (h : l.dropWhile p = x :: t) : p x = false := by
  induction l with
  | nil => simp at h
  | cons c rest ih =>
    rw [List.dropWhile_cons] at h
    by_cases hc : p c = true
    · rw [if_pos hc] at h
      exact ih h
    · rw [if_neg hc] at h
      cases h
      simpa using hc

theorem stripChars_eq_rdrop (m : List Char) :
    stripChars m = List.rdropWhile isPyWs (m.dropWhile isPyWs) := rfl

theorem stripChars_idem (l : List Char) : stripChars (stripChars l) = stripChars l := by
  rw [stripChars_eq_rdrop, stripChars_eq_rdrop]
  have hDY : (l.dropWhile isPyWs).dropWhile isPyWs = l.dropWhile isPyWs :=
    List.dropWhile_idempotent _ _
  have hpre : List.rdropWhile isPyWs (l.dropWhile isPyWs) <+: l.dropWhile isPyWs :=
    List.rdropWhile_prefix _ _
  have hDRY : (List.rdropWhile isPyWs (l.dropWhile isPyWs)).dropWhile isPyWs =
      List.rdropWhile isPyWs (l.dropWhile isPyWs) := by
    rw [List.dropWhile_eq_self_iff]
    intro hl
    have hlY : 0 < (l.dropWhile isPyWs).length := lt_of_lt_of_le hl hpre.length_le
    have hg := hpre.getElem hl
    simp only [List.get_eq_getElem, hg]
    have h0 := (List.dropWhile_eq_self_iff).mp hDY hlY
    simpa using h0
  rw [hDRY, List.rdropWhile_idempotent]

theorem pyStrip_idem (s : String) : pyStrip (pyStrip s) = pyStrip s := by
  unfold pyStrip
  rw [show (String.mk (stripChars s.data)).data = stripChars s.data from rfl, stripChars_idem]

/-- Claim C8: `_to_number` passes numeric values through (including `bool`,
a numeric type in Python), strips then parses strings — as an integer
without a dot, as a float with one — and yields `none` (never zero) for
empty or unparsable strings and for values of any non-numeric, non-string
type. -/
theorem c8_to_number_coercion :
    (∀ n : Int, toNumber (.int n) = some (n : Rat)) ∧
    (∀ q : Rat, toNumber (.float q) = some q) ∧
    (∀ b : Bool, toNumber (.bool b) = some (if b then 1 else 0)) ∧
    (∀ s : String, toNumber (.str s) = toNumber (.str (pyStrip s))) ∧
    (∀ s : String, pyStrip s = "" → toNumber (.str s) = none) ∧
    (∀ (s : String) (q : Rat), toNumber (.str s) = some q →
      (pyStrip s).data.contains '.' = false → ∃ n : Int, q = (n : Rat)) ∧
    (∀ s : String, (pyStrip s).data.contains '.' = true →
      toNumber (.str s) = parseFloat (pyStrip s)) ∧
    toNumber .none = none ∧
    (∀ xs : List PyVal, toNumber (.list xs) = none) ∧
    (∀ xs : List (String × PyVal), toNumber (.dict xs) = none) ∧
    toNumber (.str "  ") = none ∧
    toNumber (.str "abc") = none ∧
    toNumber (.str " 42 ") = some 42 ∧
    toNumber (.str " 1.5 ") = some (3 / 2) := by
  refine ⟨fun n => rfl, fun q => rfl, fun b => rfl, ?_, ?_, ?_, ?_, rfl, fun xs => rfl,
    fun xs => rfl, rfl, rfl, by decide, ?_⟩
  · intro s
    simp only [toNumber, pyStrip_idem]
  · intro s h
    simp [toNumber, h]
  · intro s q hq hdot
    simp only [toNumber, hdot, Bool.false_eq_true, if_false] at hq
    by_cases he : (pyStrip s == "") = true
    · rw [if_pos he] at hq
      exact absurd hq (by simp)
    · rw [if_neg he] at hq
      cases hpi : parseInt (pyStrip s) with
      | none => rw [hpi] at hq; exact absurd hq (by simp)
      | some n =>
        rw [hpi] at hq
        exact ⟨n, by simpa using hq.symm⟩
  · intro s hdot
    by_cases he : (pyStrip s == "") = true
    · exfalso
      have h0 : pyStrip s = "" := eq_of_beq he
      rw [h0] at hdot
      simp [String.data] at hdot
    · simp only [Bool.not_eq_true] at he
      have hmem : '.' ∈ (pyStrip s).data := by simpa using hdot
      simp [toNumber, he, hmem]
  · simp [toNumber, pyStrip, stripChars, isPyWs, parseFloat, digitsVal]
    norm_num

/-! ## C5 -/

theorem pyStr_str (s : String) : pyStr (.str s) = s := rfl

theorem truthy_str (s : String) : truthy (.str s) = (s != "") := rfl

theorem truthy_dict (xs : PyDict) : truthy (.dict xs) = !xs.isEmpty := rfl

/-- `status_code` assertion with unrecognized operator `foo` and no expected
value. -/
def assertStatusFoo : PyDict := [("type", .str "status_code"), ("operator", .str "foo")]

/-- Claim C5 counterexample: the unknown-type message is the Chinese
`不支持的断言类型`, not the English `unsupported assertion type`; and a
known type with an unrecognized operator does not always produce
`unsupported operator: <op>` — for `status_code` the expected-number guard
fires first. -/
theorem c5_counterexample :
    (runSingle extNoMatch (.dict []) [("type", .str "bogus")]).result = "FAIL" ∧
    (runSingle extNoMatch (.dict []) [("type", .str "bogus")]).message = "不支持的断言类型" ∧
    ¬ (runSingle extNoMatch (.dict []) [("type", .str "bogus")]).message =
        "unsupported assertion type" ∧
    (runSingle extNoMatch (.dict [("status_code", .int 500)]) assertStatusFoo).result = "FAIL" ∧
    (runSingle extNoMatch (.dict [("status_code", .int 500)]) assertStatusFoo).message =
      "expected number required" ∧
    ¬ (runSingle extNoMatch (.dict [("status_code", .int 500)]) assertStatusFoo).message =
        "unsupported operator: foo" :=
  ⟨rfl, rfl, by decide, rfl, rfl, by decide⟩

/-- Claim C5 (amended): an unrecognized `type` yields a FAIL verdict with the
(Chinese) unsupported-type message; a known type with an unrecognized truthy
operator yields FAIL with `unsupported operator: <op>` once the type's
earlier guards pass (for `status_code`/`response_time`: source field present
and numeric expected; for `json_path`: non-`None` JSON and a non-empty
match; for `response_body`/`header`: none beyond well-formed lookups);
neither case raises. -/
theorem c5_amended :
    (∀ (ext : ExtDeps) (r : PyVal) (a : PyDict),
      (∀ t ∈ ["status_code", "response_body", "json_path", "header", "response_time"],
        pyEq (dget a "type") (.str t) = false) →
      (runSingle ext r a).result = "FAIL" ∧
      (runSingle ext r a).message = "不支持的断言类型") ∧
    (∀ (ext : ExtDeps) (r : PyVal) (a : PyDict) (w : PyVal) (q : Rat) (s : String),
      dget a "type" = .str "status_code" → dget a "operator" = .str s → s ≠ "" →
      (∀ t ∈ ["between", "==", "!=", ">", "<", ">=", "<="], (s == t) = false) →
      pyGet r "status_code" = .ok w → isNone w = false →
      toNumber (dget a "expected") = some q →
      (runSingle ext r a).result = "FAIL" ∧
      (runSingle ext r a).message = sanitizeMessage ("unsupported operator: " ++ s)) ∧
    (∀ (ext : ExtDeps) (r : PyVal) (a : PyDict) (w : PyVal) (q : Rat) (s : String),
      dget a "type" = .str "response_time" → dget a "operator" = .str s → s ≠ "" →
      (∀ t ∈ ["between", "==", "!=", ">", "<", ">=", "<="], (s == t) = false) →
      pyGet r "elapsed_ms" = .ok w → isNone w = false →
      toNumber (dget a "expected") = some q →
      (runSingle ext r a).result = "FAIL" ∧
      (runSingle ext r a).message = sanitizeMessage ("unsupported operator: " ++ s)) ∧
    (∀ (ext : ExtDeps) (rs : PyDict) (a : PyDict) (s : String),
      dget a "type" = .str "response_body" → dget a "operator" = .str s →
      (∀ t ∈ ["contains", "not_contains", "starts_with", "ends_with", "matches_regex"],
        (s == t) = false) →
      (runSingle ext (.dict rs) a).result = "FAIL" ∧
      (runSingle ext (.dict rs) a).message = sanitizeMessage ("unsupported operator: " ++ s)) ∧
    (∀ (ext : ExtDeps) (rs : PyDict) (a : PyDict) (s : String),
      dget a "type" = .str "header" → dget a "operator" = .str s →
      (∀ t ∈ ["contains", "not_contains", "==", "!=", "exists", "not_exists"],
        (s == t) = false) →
      ((∃ hs, dget rs "headers" = .dict hs) ∨ truthy (dget rs "headers") = false) →
      (runSingle ext (.dict rs) a).result = "FAIL" ∧
      (runSingle ext (.dict rs) a).message = sanitizeMessage ("unsupported operator: " ++ s)) ∧
    (∀ (ext : ExtDeps) (r : PyVal) (a : PyDict) (j m : PyVal) (ms : List PyVal) (s : String),
      dget a "type" = .str "json_path" → dget a "operator" = .str s →
      (∀ t ∈ ["exists", "not_exists", "==", "equals", "not_null", ">", ">=", "<", "<=", "!=",
        "contains", "not_contains"], (s == t) = false) →
      pyGet r "response_json" = .ok j → isNone j = false →
      ext.resolve (dget a "path") j = .ok (m :: ms) →
      (runSingle ext r a).result = "FAIL" ∧
      (runSingle ext r a).message = sanitizeMessage ("unsupported operator: " ++ s)) := by
  refine ⟨?_, ?_, ?_, ?_, ?_, ?_⟩
  · intro ext r a h
    have h1 := h "status_code" (by simp)
    have h2 := h "response_body" (by simp)
    have h3 := h "json_path" (by simp)
    have h4 := h "header" (by simp)
    have h5 := h "response_time" (by simp)
    constructor <;>
      simp [runSingle, runSingleE, h1, h2, h3, h4, h5, buildResult, sanitizeMessage,
        normalizeLB, replaceList, replaceFuel, splitOnChar, joinChar, stripChars, isPyWs, bsl]
  · intro ext r a w q s hty hop hsne hops hw hno hexp
    have hb1 := hops "between" (by simp)
    have hb2 := hops "==" (by simp)
    have hb3 := hops "!=" (by simp)
    have hb4 := hops ">" (by simp)
    have hb5 := hops "<" (by simp)
    have hb6 := hops ">=" (by simp)
    have hb7 := hops "<=" (by simp)
    constructor <;>
      simp [runSingle, runSingleE, hty, runStatusCode, hop, hw, hno, hexp, compareTag,
        compareTagPure, isUnhashable, pyEq_str, truthy, buildResult, pyStr_str, hsne,
        hb1, hb2, hb3, hb4, hb5, hb6, hb7]
  · intro ext r a w q s hty hop hsne hops hw hno hexp
    have hb1 := hops "between" (by simp)
    have hb2 := hops "==" (by simp)
    have hb3 := hops "!=" (by simp)
    have hb4 := hops ">" (by simp)
    have hb5 := hops "<" (by simp)
    have hb6 := hops ">=" (by simp)
    have hb7 := hops "<=" (by simp)
    constructor <;>
      simp [runSingle, runSingleE, hty, runResponseTime, hop, hw, hno, hexp, compareTag,
        compareTagPure, isUnhashable, pyEq_str, truthy, buildResult, pyStr_str, hsne,
        hb1, hb2, hb3, hb4, hb5, hb6, hb7]
  · intro ext rs a s hty hop hops
    have hb1 := hops "contains" (by simp)
    have hb2 := hops "not_contains" (by simp)
    have hb3 := hops "starts_with" (by simp)
    have hb4 := hops "ends_with" (by simp)
    have hb5 := hops "matches_regex" (by simp)
    constructor <;>
      · by_cases htt : truthy (dget rs "response_text") = true
        · simp [runSingle, runSingleE, hty, runResponseBody, hop, pyGet, htt, pyEq_str,
            truthy_str, buildResult, pyStr_str, hb1, hb2, hb3, hb4, hb5]
        · simp only [Bool.not_eq_true] at htt
          by_cases hjn : isNone (dget rs "response_json") = true
          · simp [runSingle, runSingleE, hty, runResponseBody, hop, pyGet, htt, hjn, pyEq_str,
              truthy_str, buildResult, pyStr_str, hb1, hb2, hb3, hb4, hb5]
          · simp only [Bool.not_eq_true] at hjn
            simp [runSingle, runSingleE, hty, runResponseBody, hop, pyGet, htt, hjn, pyEq_str,
              truthy_str, buildResult, pyStr_str, hb1, hb2, hb3, hb4, hb5]
  · intro ext rs a s hty hop hops hH
    have hb1 := hops "contains" (by simp)
    have hb2 := hops "not_contains" (by simp)
    have hb3 := hops "==" (by simp)
    have hb4 := hops "!=" (by simp)
    have hb5 := hops "exists" (by simp)
    have hb6 := hops "not_exists" (by simp)
    rcases hH with ⟨hs, hhd⟩ | hhf
    · constructor <;>
        · by_cases hhn : (headerNameOf a == "") = true
          · simp [runSingle, runSingleE, hty, runHeader, hop, pyGet, hhd, hhn,
              pyEq_str, buildResult, pyStr_str, truthy_dict, hb1, hb2, hb3, hb4, hb5, hb6]
          · simp only [Bool.not_eq_true] at hhn
            rcases hs with _ | ⟨p, t⟩
            · simp [runSingle, runSingleE, hty, runHeader, hop, pyGet, hhd, hhn,
                pyEq_str, buildResult, pyStr_str, truthy_dict, hb1, hb2, hb3, hb4, hb5, hb6]
            · simp [runSingle, runSingleE, hty, runHeader, hop, pyGet, hhd, hhn,
                pyEq_str, buildResult, pyStr_str, truthy_dict, hb1, hb2, hb3, hb4, hb5, hb6]
    · constructor <;>
        · by_cases hhn : (headerNameOf a == "") = true
          · simp [runSingle, runSingleE, hty, runHeader, hop, pyGet, hhf, hhn,
              pyEq_str, buildResult, pyStr_str, truthy_dict, hb1, hb2, hb3, hb4, hb5, hb6]
          · simp only [Bool.not_eq_true] at hhn
            simp [runSingle, runSingleE, hty, runHeader, hop, pyGet, hhf, hhn,
              pyEq_str, buildResult, pyStr_str, truthy_dict, hb1, hb2, hb3, hb4, hb5, hb6]
  · intro ext r a j m ms s hty hop hops hj hjn hres
    have hb1 := hops "exists" (by simp)
    have hb2 := hops "not_exists" (by simp)
    have hb3 := hops "==" (by simp)
    have hb4 := hops "equals" (by simp)
    have hb5 := hops "not_null" (by simp)
    have hb6 := hops ">" (by simp)
    have hb7 := hops ">=" (by simp)
    have hb8 := hops "<" (by simp)
    have hb9 := hops "<=" (by simp)
    have hb10 := hops "!=" (by simp)
    have hb11 := hops "contains" (by simp)
    have hb12 := hops "not_contains" (by simp)
    constructor <;>
      simp [runSingle, runSingleE, hty, runJsonPath, hop, hj, hjn, hres, isUnhashable,
        pyEq_str, buildResult, pyStr_str, hb1, hb2, hb3, hb4, hb5, hb6, hb7, hb8, hb9,
        hb10, hb11, hb12]

/-- Witness for C5 (amended) at concrete inputs: an unknown type `bogus`,
and `status_code` with unknown operator `foo` and numeric expected `200`. -/
theorem c5_amended_witness :
    ((runSingle extNoMatch (.dict []) [("type", .str "bogus")]).result = "FAIL" ∧
      (runSingle extNoMatch (.dict []) [("type", .str "bogus")]).message = "不支持的断言类型") ∧
    ((runSingle extNoMatch (.dict [("status_code", .int 500)])
        [("type", .str "status_code"), ("operator", .str "foo"), ("expected", .int 200)]).result =
        "FAIL" ∧
      (runSingle extNoMatch (.dict [("status_code", .int 500)])
        [("type", .str "status_code"), ("operator", .str "foo"), ("expected", .int 200)]).message =
        sanitizeMessage ("unsupported operator: " ++ "foo")) :=
  ⟨c5_amended.1 extNoMatch (.dict []) [("type", .str "bogus")] (by decide),
   c5_amended.2.1 extNoMatch (.dict [("status_code", .int 500)])
     [("type", .str "status_code"), ("operator", .str "foo"), ("expected", .int 200)]
     (.int 500) 200 "foo" rfl rfl (by decide) (by decide) rfl rfl (by decide)⟩

/-! ## C10 -/

theorem charOfNat_toNat (n : Nat) (h : n < 55296) : (Char.ofNat n).toNat = n := by
  unfold Char.ofNat
  rw [dif_pos (Or.inl h)]
  rfl

theorem lowerChar_idem (c : Char) : lowerChar (lowerChar c) = lowerChar c := by
  unfold lowerChar
  by_cases h : 65 ≤ c.toNat ∧ c.toNat ≤ 90
  · rw [if_pos h]
    have ht : (Char.ofNat (c.toNat + 32)).toNat = c.toNat + 32 :=
      charOfNat_toNat _ (by omega)
    rw [if_neg (by rw [ht]; omega)]
  · rw [if_neg h, if_neg h]

theorem lowerStr_idem (s : String) : lowerStr (lowerStr s) = lowerStr s := by
  unfold lowerStr
  simp only [String.data]
  rw [List.map_map]
  congr 1
  exact List.map_congr_left (fun c _ => lowerChar_idem c)

theorem dlookup_append_right (l1 l2 : PyDict) (k : String) (h : ∀ p ∈ l1, p.1 ≠ k) :
    dlookup (l1 ++ l2) k = dlookup l2 k := by
  induction l1 with
  | nil => rfl
  | cons p t ih =>
    have hp : (p.1 == k) = false := by
      simpa using h p (by simp)
    cases p with
    | mk k1 v1 =>
      simp only [List.cons_append, dlookup]
      rw [hp]
      simp only [Bool.false_eq_true, if_false]
      exact ih (fun q hq => h q (by simp [hq]))

theorem dlookup_nomatch (l : PyDict) (k : String) (h : ∀ p ∈ l, p.1 ≠ k) :
    dlookup l k = none := by
  have h0 := dlookup_append_right l [] k h
  simpa using h0

theorem dictOrEmpty (xs : PyDict) :
    (if truthy (.dict xs) then PyVal.dict xs else .dict []) = .dict xs := by
  cases xs <;> simp [truthy]

/-- The header lookup sees a header that is present with an empty-string
value as the empty string, provided no other key is a case variant of the
name. -/
theorem headerActual_empty_entry (hs1 hs2 : PyDict) (name : String)
    (hcoll : ∀ p ∈ hs1 ++ hs2, lowerStr p.1 ≠ lowerStr name) :
    headerActual (hs1 ++ (name, .str "") :: hs2) name = "" := by
  have hc1 : ∀ p ∈ hs1, lowerStr p.1 ≠ lowerStr name := fun p hp => hcoll p (by simp [hp])
  have hc2 : ∀ p ∈ hs2, lowerStr p.1 ≠ lowerStr name := fun p hp => hcoll p (by simp [hp])
  have hk1 : ∀ p ∈ hs1, p.1 ≠ name := fun p hp he => hc1 p hp (by rw [he])
  have hl1 : ∀ p ∈ hs1, p.1 ≠ lowerStr name := fun p hp he =>
    hc1 p hp (by rw [he, lowerStr_idem])
  have hl2 : ∀ p ∈ hs2, p.1 ≠ lowerStr name := fun p hp he =>
    hc2 p hp (by rw [he, lowerStr_idem])
  have hv1 : dlookup (hs1 ++ (name, .str "") :: hs2) name = some (.str "") := by
    rw [dlookup_append_right hs1 _ name hk1]
    simp [dlookup]
  have hv2 : dlookup (hs1 ++ (name, PyVal.str "") :: hs2) (lowerStr name) =
      (if (name == lowerStr name) = true then some (PyVal.str "")
       else dlookup hs2 (lowerStr name)) := by
    rw [dlookup_append_right hs1 _ _ hl1]
    simp [dlookup]
  have hlow : dlookup ((hs2.map (fun p => (lowerStr p.1, p.2))).reverse ++
      (lowerStr name, PyVal.str "") :: (hs1.map (fun p => (lowerStr p.1, p.2))).reverse)
      (lowerStr name) = some (.str "") := by
    rw [dlookup_append_right _ _ _ (by
      intro p hp
      simp only [List.mem_reverse, List.mem_map] at hp
      obtain ⟨q, hq, rfl⟩ := hp
      exact fun he => hc2 q hq he)]
    simp [dlookup]
  have hv2f : truthy ((dlookup (hs1 ++ (name, PyVal.str "") :: hs2) (lowerStr name)).getD
      PyVal.none) = false := by
    rw [hv2]
    by_cases hne : (name == lowerStr name) = true
    · simp [hne, truthy_str]
    · simp only [Bool.not_eq_true] at hne
      simp only [hne, Bool.false_eq_true, if_false]
      rw [dlookup_nomatch hs2 _ hl2]
      simp [truthy]
  unfold headerActual
  simp [dget, hv1, hv2f, hlow, pyStr_str, truthy_str]

/-- The header lookup sees an entirely absent header as the empty string,
provided no key is a case variant of the name. -/
theorem headerActual_absent (hs : PyDict) (name : String)
    (hcoll : ∀ p ∈ hs, lowerStr p.1 ≠ lowerStr name) :
    headerActual hs name = "" := by
  have hk : ∀ p ∈ hs, p.1 ≠ name := fun p hp he => hcoll p hp (by rw [he])
  have hl : ∀ p ∈ hs, p.1 ≠ lowerStr name := fun p hp he =>
    hcoll p hp (by rw [he, lowerStr_idem])
  have hlow : dlookup (hs.map (fun p => (lowerStr p.1, p.2))).reverse (lowerStr name) = none := by
    apply dlookup_nomatch
    intro p hp
    simp only [List.mem_reverse, List.mem_map] at hp
    obtain ⟨q, hq, rfl⟩ := hp
    exact fun he => hcoll q hq he
  have hv1f : truthy ((dlookup hs name).getD PyVal.none) = false := by
    rw [dlookup_nomatch hs name hk]
    simp [truthy]
  have hv2f : truthy ((dlookup hs (lowerStr name)).getD PyVal.none) = false := by
    rw [dlookup_nomatch hs _ hl]
    simp [truthy]
  unfold headerActual
  simp [dget, hv1f, hv2f, hlow, pyStr_str]

/-- Response whose headers hold `x-a` empty and a case variant `X-A`
carrying `v`. -/
def respCollidingHeaders : PyVal :=
  .dict [("headers", .dict [("x-a", .str ""), ("X-A", .str "v")])]

/-- A `header exists x-a` assertion. -/
def assertHeaderExists : PyDict :=
  [("type", .str "header"), ("operator", .str "exists"), ("header", .str "x-a")]

/-- Claim C10 counterexample: with headers `{"x-a": "", "X-A": "v"}` the
header `x-a` is present with an empty value, yet `exists` PASSes (the
case-insensitive fallback finds the other key), so the outcome is neither
FAIL nor identical to the header being absent. -/
theorem c10_counterexample :
    dget [("x-a", PyVal.str ""), ("X-A", PyVal.str "v")] "x-a" = .str "" ∧
    (runSingle extNoMatch respCollidingHeaders assertHeaderExists).result = "PASS" ∧
    (runSingle extNoMatch respCollidingHeaders assertHeaderExists).actual = .str "v" :=
  ⟨rfl, rfl, rfl⟩

/-- Claim C10 (amended): provided the header name and all header keys are
ASCII (the domain where the embedded `lowerStr` agrees with Python's full
Unicode `str.lower()`) and no other header key is a case variant of the
name, a header present with an empty-string value behaves exactly like an
absent header: the whole verdict is identical, and in particular `exists`
FAILs and `not_exists` PASSes. -/
theorem c10_empty_header_like_absent (hs1 hs2 : PyDict) (name : String) (r1 r2 : PyVal)
    (a : PyDict)
    (hname : name ≠ "")
    (_hascii : isAsciiStr name = true)
    (_hkascii : ∀ p ∈ hs1 ++ hs2, isAsciiStr p.1 = true)
    (hcoll : ∀ p ∈ hs1 ++ hs2, lowerStr p.1 ≠ lowerStr name)
    (h1 : pyGet r1 "headers" = .ok (.dict (hs1 ++ (name, .str "") :: hs2)))
    (h2 : pyGet r2 "headers" = .ok (.dict (hs1 ++ hs2)))
    (hha : dget a "header" = .str name) :
    runHeader r1 a = runHeader r2 a ∧
    (dget a "operator" = .str "exists" →
      ∃ v, runHeader r1 a = .ok v ∧ v.result = "FAIL") ∧
    (dget a "operator" = .str "not_exists" →
      ∃ v, runHeader r1 a = .ok v ∧ v.result = "PASS") := by
  have hhn : headerNameOf a = name := by
    simp [headerNameOf, hha, truthy_str, pyStr_str, hname]
  have hnb : (name == "") = false := by simp [hname]
  have hAct1 : headerActual (hs1 ++ (name, .str "") :: hs2) name = "" :=
    headerActual_empty_entry hs1 hs2 name hcoll
  have hAct2 : headerActual (hs1 ++ hs2) name = "" :=
    headerActual_absent (hs1 ++ hs2) name hcoll
  refine ⟨?_, ?_, ?_⟩
  · simp only [runHeader, h1, h2, dictOrEmpty, hhn, hnb, Bool.false_eq_true, if_false,
      hAct1, hAct2]
  · intro hop
    simp [runHeader, h1, dictOrEmpty, hhn, hnb, hAct1, hop, pyEq_str, buildResult]
  · intro hop
    simp [runHeader, h1, dictOrEmpty, hhn, hnb, hAct1, hop, pyEq_str, buildResult]

/-- Witness for C10 (amended) at a concrete input: headers
`{"other": "1", "x-a": ""}` versus `{"other": "1"}` with an `exists`
assertion on `x-a`. -/
theorem c10_witness :
    runHeader (.dict [("headers", .dict [("other", .str "1"), ("x-a", .str "")])])
        assertHeaderExists =
      runHeader (.dict [("headers", .dict [("other", .str "1")])]) assertHeaderExists ∧
    (∃ v, runHeader (.dict [("headers", .dict [("other", .str "1"), ("x-a", .str "")])])
        assertHeaderExists = .ok v ∧ v.result = "FAIL") := by
  have h := c10_empty_header_like_absent [("other", .str "1")] [] "x-a"
    (.dict [("headers", .dict [("other", .str "1"), ("x-a", .str "")])])
    (.dict [("headers", .dict [("other", .str "1")])])
    assertHeaderExists (by decide) (by decide) (by decide) (by decide) rfl rfl rfl
  exact ⟨h.1, h.2.1 rfl⟩

/-- Witness for C8 at concrete inputs: an int passes through, and the
string ` 42 ` parses to an integer-valued number. -/
theorem c8_witness :
    toNumber (.int 5) = some ((5 : Int) : Rat) ∧
    (∃ n : Int, (42 : Rat) = (n : Rat)) :=
  ⟨c8_to_number_coercion.1 5,
   c8_to_number_coercion.2.2.2.2.2.1 " 42 " 42 (by decide) (by decide)⟩

/-- Witness for C9 at a concrete run: one executed case. -/
theorem c9_witness :
    (build_summary (batchRunCases sendSuccessFalse engineNoMatch [caseOneAssertion])).total =
      (build_summary (batchRunCases sendSuccessFalse engineNoMatch [caseOneAssertion])).pass +
      (build_summary (batchRunCases sendSuccessFalse engineNoMatch [caseOneAssertion])).fail ∧
    (build_summary (batchRunCases sendSuccessFalse engineNoMatch [caseOneAssertion])).total =
      (batchRunCases sendSuccessFalse engineNoMatch [caseOneAssertion]).length ∧
    (build_summary (batchRunCases sendSuccessFalse engineNoMatch [caseOneAssertion])).pass =
      ((batchRunCases sendSuccessFalse engineNoMatch [caseOneAssertion]).filter
        (fun c => c.result == "PASS")).length ∧
    (build_summary (batchRunCases sendSuccessFalse engineNoMatch [caseOneAssertion])).fail =
      ((batchRunCases sendSuccessFalse engineNoMatch [caseOneAssertion]).filter
        (fun c => !(c.result == "PASS"))).length :=
  c9_summary_consistent (batchRunCases sendSuccessFalse engineNoMatch [caseOneAssertion])
